import Mathlib

/-!
Verification development for the OBS Wayland global-shortcuts portal engine,
a shallow embedding of `src/shortcutsPortal.cpp` (class `ShortcutsPortal`).

The C++ core is a Qt object driven by a single event loop.  The embedding
models it as explicit state passing:

* `PortalShortcut` / `Registry` embed `PortalShortcut` entries stored in the
  `QMap<QString, PortalShortcut> m_shortcuts` member.  `qmapInsert` has the
  QMap semantics used by the code: inserting an existing key overwrites the
  entry.  QMap iterates in sorted key order; the model keeps insertion order
  instead, and no property proved below depends on iteration order.
* `PortalState` carries the data members of `ShortcutsPortal` (declared in
  the repository header `shortcutsPortal.h`, which only declares them; all
  behavior embedded here comes from the `.cpp`).
* Every D-Bus side effect of a member function is recorded in an output list
  of `PortalOut` events; replies of the synchronous `QDBusConnection::call`
  invocations are supplied by the environment as explicit arguments.
* Callback closures registered for shortcuts are embedded as first-order
  `CallbackSpec` data, with `runCallback` giving the body of each closure as
  a transformer of the OBS frontend state plus a list of emitted OBS calls.
* `QCryptographicHash::hash(..., Md5).toHex()` is a Qt library primitive,
  not repository code; it enters the model as an explicit function argument
  `md5hex : String → String`.
-/

/-! ### Callback bodies and OBS frontend effects -/

/-- The body of a shortcut callback closure, as data.  Each constructor
corresponds to one of the lambdas passed to `createShortcut` in
`createShortcuts` (hotkey trigger, the five synthetic toggles, scene switch). -/
inductive CallbackSpec where
  | triggerHotkey (hotkeyId : Nat)
  | toggleRecording
  | toggleStreaming
  | toggleReplayBuffer
  | toggleVirtualcam
  | toggleStudioMode
  | switchToScene (sceneName : String)
  deriving DecidableEq

/-- The OBS frontend state observed and mutated by the callback bodies. -/
structure ObsState where
  recordingActive : Bool
  streamingActive : Bool
  replayBufferActive : Bool
  virtualcamActive : Bool
  studioModeActive : Bool
  sourceNames : List String
  currentScene : String
  deriving DecidableEq

/-- OBS API calls a callback body can emit. -/
inductive ObsCall where
  | hotkeyRouted (hotkeyId : Nat) (pressed : Bool)
  | recordingStart
  | recordingStop
  | streamingStart
  | streamingStop
  | replayStart
  | replayStop
  | virtualcamStart
  | virtualcamStop
  | setStudioMode (enabled : Bool)
  | setCurrentScene (sceneName : String)
  deriving DecidableEq

/-- Body of each callback closure from `createShortcuts`.  The hotkey lambda
forwards `pressed` unconditionally to `obs_hotkey_trigger_routed_callback`;
every toggle lambda and the scene lambda return immediately when
`pressed` is false (`if (!pressed) return;`). -/
def runCallback (spec : CallbackSpec) (pressed : Bool) (s : ObsState) :
    ObsState × List ObsCall :=
  match spec with
  | .triggerHotkey hid => (s, [.hotkeyRouted hid pressed])
  | .toggleRecording =>
      if pressed then
        if s.recordingActive then
          ({ s with recordingActive := false }, [.recordingStop])
        else
          ({ s with recordingActive := true }, [.recordingStart])
      else (s, [])
  | .toggleStreaming =>
      if pressed then
        if s.streamingActive then
          ({ s with streamingActive := false }, [.streamingStop])
        else
          ({ s with streamingActive := true }, [.streamingStart])
      else (s, [])
  | .toggleReplayBuffer =>
      if pressed then
        if s.replayBufferActive then
          ({ s with replayBufferActive := false }, [.replayStop])
        else
          ({ s with replayBufferActive := true }, [.replayStart])
      else (s, [])
  | .toggleVirtualcam =>
      if pressed then
        if s.virtualcamActive then
          ({ s with virtualcamActive := false }, [.virtualcamStop])
        else
          ({ s with virtualcamActive := true }, [.virtualcamStart])
      else (s, [])
  | .toggleStudioMode =>
      if pressed then
        if s.studioModeActive then
          ({ s with studioModeActive := false }, [.setStudioMode false])
        else
          ({ s with studioModeActive := true }, [.setStudioMode true])
      else (s, [])
  | .switchToScene sceneName =>
      if pressed then
        if s.sourceNames.contains sceneName then
          ({ s with currentScene := sceneName }, [.setCurrentScene sceneName])
        else (s, [])
      else (s, [])

/-! ### Shortcut registry (`QMap<QString, PortalShortcut> m_shortcuts`) -/

/-- `struct PortalShortcut` from the header: name, description, callback. -/
structure PortalShortcut where
  name : String
  description : String
  callbackFunc : CallbackSpec
  deriving DecidableEq

/-- The `m_shortcuts` map, as an association list with unique keys. -/
abbrev Registry := List (String × PortalShortcut)

/-- `QMap::operator[]=` insertion: overwrite the entry of an existing key,
otherwise add a new entry. -/
def qmapInsert (k : String) (v : PortalShortcut) : Registry → Registry
  | [] => [(k, v)]
  | (k₂, v₂) :: rest =>
      if k₂ = k then (k, v) :: rest else (k₂, v₂) :: qmapInsert k v rest

/-- `QMap::contains` / `operator[]` read side, as one lookup. -/
def qmapLookup (r : Registry) (k : String) : Option PortalShortcut :=
  match r with
  | [] => none
  | (k₂, v₂) :: rest => if k₂ = k then some v₂ else qmapLookup rest k

/-- `m_shortcuts.clear()`: drops all entries whatever they are. -/
def qmapClear (_r : Registry) : Registry := []

/-- `ShortcutsPortal::createShortcut`: `m_shortcuts[name] = PortalShortcut{name, description, callbackFunc}`. -/
def createShortcut (name description : String) (callbackFunc : CallbackSpec)
    (r : Registry) : Registry :=
  qmapInsert name ⟨name, description, callbackFunc⟩ r

/-! ### Identifier derivation -/

/-- Per-hotkey id: `"hk_" + QString::number(id)` (line 183 of the source). -/
def hkId (n : Nat) : String := "hk_" ++ Nat.repr n

/-- Per-scene id: `"scene_" + QCryptographicHash::hash(name, Md5).toHex()`
(line 286); the MD5-hex primitive is the explicit argument `md5hex`. -/
def sceneId (md5hex : String → String) (sceneName : String) : String :=
  "scene_" ++ md5hex sceneName

/-! ### Decimal representation: `Nat.repr` is injective

`QString::number` on an unsigned id prints the usual decimal form, embedded
as `Nat.repr`.  Core defines `Nat.repr n = (Nat.toDigits 10 n).asString`
through the fuelled `Nat.toDigitsCore`; we relate it to the structurally
recursive `decDigits` and recover the value by a fold, which gives
injectivity. -/

/-- Structural version of the base-10 digit-character list of `n`. -/
def decDigits (n : Nat) : List Char :=
  if _h : n < 10 then [Nat.digitChar n]
  else decDigits (n / 10) ++ [Nat.digitChar (n % 10)]
termination_by n
decreasing_by
  exact Nat.div_lt_self (by omega) (by omega)

theorem toDigitsCore_eq_decDigits :
    ∀ (fuel n : Nat) (acc : List Char), n < fuel →
      Nat.toDigitsCore 10 fuel n acc = decDigits n ++ acc := by
  intro fuel
  induction fuel with
  | zero => intro n acc h; omega
  | succ fuel ih =>
      intro n acc h
      show (if n / 10 = 0 then Nat.digitChar (n % 10) :: acc
            else Nat.toDigitsCore 10 fuel (n / 10) (Nat.digitChar (n % 10) :: acc))
          = decDigits n ++ acc
      by_cases hdiv : n / 10 = 0
      · have hlt : n < 10 := by omega
        rw [if_pos hdiv, decDigits, dif_pos hlt, Nat.mod_eq_of_lt hlt]
        rfl
      · have hge : ¬ n < 10 := by omega
        have hrec : n / 10 < fuel := by omega
        rw [if_neg hdiv, ih (n / 10) (Nat.digitChar (n % 10) :: acc) hrec]
        conv_rhs => rw [decDigits]
        rw [dif_neg hge, List.append_assoc]
        rfl

theorem repr_eq_decDigits (n : Nat) : Nat.repr n = (decDigits n).asString := by
  show (Nat.toDigitsCore 10 (n + 1) n []).asString = (decDigits n).asString
  rw [toDigitsCore_eq_decDigits (n + 1) n [] (Nat.lt_succ_self n), List.append_nil]

/-- Numeric value of a digit character. -/
def charVal (c : Char) : Nat := c.toNat - 48

theorem charVal_digitChar (d : Nat) (h : d < 10) :
    charVal (Nat.digitChar d) = d := by
  interval_cases d <;> decide

theorem decDigits_foldl (n : Nat) :
    ∀ a : Nat,
      (decDigits n).foldl (fun x c => 10 * x + charVal c) a
        = a * 10 ^ (decDigits n).length + n := by
  induction n using Nat.strong_induction_on with
  | _ n ih =>
      intro a
      by_cases h : n < 10
      · rw [decDigits, dif_pos h]
        simp [charVal_digitChar n h]
        omega
      · rw [decDigits, dif_neg h]
        have hrec : n / 10 < n := Nat.div_lt_self (by omega) (by omega)
        rw [List.foldl_append]
        simp only [List.foldl_cons, List.foldl_nil, ih (n / 10) hrec a,
          List.length_append, List.length_singleton]
        rw [charVal_digitChar (n % 10) (by omega)]
        have hmod : 10 * (n / 10) + n % 10 = n := by omega
        calc 10 * (a * 10 ^ (decDigits (n / 10)).length + n / 10) + n % 10
            = a * (10 ^ (decDigits (n / 10)).length * 10)
                + (10 * (n / 10) + n % 10) := by ring
          _ = a * 10 ^ ((decDigits (n / 10)).length + 1) + n := by
              rw [pow_succ, hmod]

theorem decDigits_injective {m n : Nat} (h : decDigits m = decDigits n) :
    m = n := by
  have hm := decDigits_foldl m 0
  have hn := decDigits_foldl n 0
  rw [h] at hm
  simpa [hm] using hn

theorem repr_injective : Function.Injective Nat.repr := by
  intro m n h
  rw [repr_eq_decDigits, repr_eq_decDigits] at h
  exact decDigits_injective (congrArg String.data h)

theorem string_append_cancel_left {a b c : String} (h : a ++ b = a ++ c) :
    b = c := by
  apply String.ext
  have hd : a.data ++ b.data = a.data ++ c.data := by
    rw [← String.data_append, ← String.data_append, h]
  exact List.append_cancel_left hd

theorem hkId_inj : Function.Injective hkId := by
  intro m n h
  exact repr_injective (string_append_cancel_left h)

/-! ### First-character discrimination between the three id families -/

/-- First character of a string, used to separate the id namespaces
`hk_...`, `scene_...` and the reserved `_toggle_...` literals. -/
def headChar (s : String) : Option Char := s.data.head?

theorem ne_of_headChar {s t : String} (h : headChar s ≠ headChar t) :
    s ≠ t := fun e => h (by rw [e])

theorem headChar_hkId (n : Nat) : headChar (hkId n) = some 'h' := by
  show (("hk_" ++ Nat.repr n).data).head? = some 'h'
  rw [String.data_append]
  rfl

theorem headChar_sceneId (md5hex : String → String) (sceneName : String) :
    headChar (sceneId md5hex sceneName) = some 's' := by
  show (("scene_" ++ md5hex sceneName).data).head? = some 's'
  rw [String.data_append]
  rfl

/-! ### Host action lists consumed by `createShortcuts` -/

/-- One entry of the `obs_enum_hotkeys` enumeration, as observed by the
enumeration lambda: the numeric hotkey id plus the strings the lambda reads
through the OBS API (`none` embeds a NULL C pointer).  `registererName` is
the resolved registerer name, `none` when the registerer is NULL, its name
is NULL, or the source pointer was skipped as invalid. -/
structure HotkeyBinding where
  id : Nat
  hotkeyDesc : Option String
  hotkeyName : Option String
  registererName : Option String
  deriving DecidableEq

/-- Description derivation of the hotkey-enumeration lambda (lines 143-179):
fall back from description to name to a fixed label, then decorate with the
registerer name when present and nonempty. -/
def hotkeyDescription (b : HotkeyBinding) : String :=
  let d := match b.hotkeyDesc with
    | some s => s
    | none => ""
  let d := if d = "" then
      (match b.hotkeyName with
       | some s => s
       | none => "Unknown Hotkey")
    else d
  match b.registererName with
  | some p => if p = "" then d else "[" ++ p ++ "] " ++ d
  | none => d

/-- The host action set enumerated during one `createShortcuts` pass:
the hotkey list from `obs_enum_hotkeys` and the scene-name list from
`obs_frontend_get_scenes`. -/
structure ActionList where
  hotkeys : List HotkeyBinding
  scenes : List String
  deriving DecidableEq

/-- Description attached to a scene-switch shortcut (line 288). -/
def sceneDescription (sceneName : String) : String :=
  "Switch to scene \x27" ++ sceneName ++ "\x27"

/-- `ShortcutsPortal::createShortcuts` (the resync pass): clear the map,
insert one shortcut per enumerated hotkey, insert the five synthetic toggle
shortcuts, then one shortcut per nonempty scene name (empty names are
skipped by the `continue`).  The commented-out `_toggle_preview` block in
the source is not compiled and is not modelled. -/
def createShortcuts (md5hex : String → String) (A : ActionList)
    (r : Registry) : Registry :=
  let r0 := qmapClear r
  let r1 := A.hotkeys.foldl
    (fun acc b =>
      createShortcut (hkId b.id) (hotkeyDescription b)
        (CallbackSpec.triggerHotkey b.id) acc) r0
  let r2 := createShortcut "_toggle_recording" "Toggle Recording"
    CallbackSpec.toggleRecording r1
  let r3 := createShortcut "_toggle_streaming" "Toggle Streaming"
    CallbackSpec.toggleStreaming r2
  let r4 := createShortcut "_toggle_replay_buffer" "Toggle Replay Buffer"
    CallbackSpec.toggleReplayBuffer r3
  let r5 := createShortcut "_toggle_virtualcam" "Toggle Virtual Camera"
    CallbackSpec.toggleVirtualcam r4
  let r6 := createShortcut "_toggle_studio_mode" "Toggle Studio Mode"
    CallbackSpec.toggleStudioMode r5
  A.scenes.foldl
    (fun acc sceneName =>
      if sceneName = "" then acc
      else
        createShortcut (sceneId md5hex sceneName)
          (sceneDescription sceneName)
          (CallbackSpec.switchToScene sceneName) acc)
    r6

/-- The registry entry produced for one enumerated hotkey. -/
def hotkeyEntry (b : HotkeyBinding) : String × PortalShortcut :=
  (hkId b.id,
   ⟨hkId b.id, hotkeyDescription b, CallbackSpec.triggerHotkey b.id⟩)

/-- The registry entry produced for one scene name. -/
def sceneEntry (md5hex : String → String) (sceneName : String) :
    String × PortalShortcut :=
  (sceneId md5hex sceneName,
   ⟨sceneId md5hex sceneName, sceneDescription sceneName,
    CallbackSpec.switchToScene sceneName⟩)

/-- The five synthetic toggle entries, in source insertion order. -/
def syntheticEntries : Registry :=
  [("_toggle_recording",
    ⟨"_toggle_recording", "Toggle Recording", CallbackSpec.toggleRecording⟩),
   ("_toggle_streaming",
    ⟨"_toggle_streaming", "Toggle Streaming", CallbackSpec.toggleStreaming⟩),
   ("_toggle_replay_buffer",
    ⟨"_toggle_replay_buffer", "Toggle Replay Buffer",
     CallbackSpec.toggleReplayBuffer⟩),
   ("_toggle_virtualcam",
    ⟨"_toggle_virtualcam", "Toggle Virtual Camera",
     CallbackSpec.toggleVirtualcam⟩),
   ("_toggle_studio_mode",
    ⟨"_toggle_studio_mode", "Toggle Studio Mode",
     CallbackSpec.toggleStudioMode⟩)]

/-! ### The portal object state and its D-Bus side effects -/

/-- Data members of `ShortcutsPortal` (declared in the header, driven by the
`.cpp`).  `sessionObjPath` is `m_sessionObjPath.path()`, the empty string
while no session handle has been stored; the frontend-event handler uses
exactly this emptiness test as its session gate. -/
structure PortalState where
  shortcuts : Registry
  sessionObjPath : String
  responseHandle : String
  handleToken : String
  sessionHandleToken : String
  isLoaded : Bool
  oneShotConnected : Bool
  activatedConnected : Bool
  deactivatedConnected : Bool
  deriving DecidableEq

/-- Observable side effects of the member functions: outgoing D-Bus calls
(with the argument fields relevant to the spec), signal connection
management, error dialogs and log lines. -/
inductive PortalOut where
  | createSessionCall (handleToken sessionHandleToken : String)
  | bindShortcutsCall (sessionHandle : String)
      (shortcutList : List (String × String))
      (parentWindow : String) (handleToken : String)
  | configureShortcutsCall (sessionHandle : String)
      (parentWindow : String) (handleToken : String)
  | connectResponseSignal (path : String)
  | disconnectResponseSignal (path : String)
  | connectActivatedSignal
  | connectDeactivatedSignal
  | criticalDialog (title : String)
  | logLine (msg : String)
  deriving DecidableEq

/-- The synchronous `QDBusConnection::call` reply as the code inspects it:
its message type, and the value of `arguments().first()` read as a
`QDBusObjectPath` (empty when the first argument is not an object path). -/
structure SyncCallReply where
  isReplyMessage : Bool
  firstArgObjectPath : String
  deriving DecidableEq

/-- `ShortcutsPortal::createSession`: send `CreateSession` carrying the two
stored tokens; on a non-reply message show the fatal dialog, but do not
return: the response handle is still read from the failed reply and the
one-shot `Response` listener is still connected on it. -/
def createSession (st : PortalState) (reply : SyncCallReply) :
    PortalState × List PortalOut :=
  let outs := [PortalOut.createSessionCall st.handleToken st.sessionHandleToken]
  let outs := if reply.isReplyMessage then outs
    else outs ++ [PortalOut.criticalDialog "Failed to create global shortcuts session"]
  ({ st with
      responseHandle := reply.firstArgObjectPath,
      oneShotConnected := true },
   outs ++ [PortalOut.connectResponseSignal reply.firstArgObjectPath])

/-- `ShortcutsPortal::bindShortcuts`: build the full (id, description) list
from the map and send `BindShortcuts` with the stored session path, the
window id and the stored handle token; a failure reply only produces the
error dialog.  There is no session-state check in this function. -/
def bindShortcuts (windowId : String) (replyIsReply : Bool)
    (st : PortalState) : PortalState × List PortalOut :=
  let pairs := st.shortcuts.map (fun e => (e.2.name, e.2.description))
  let call := PortalOut.bindShortcutsCall st.sessionObjPath pairs windowId
    st.handleToken
  if replyIsReply then (st, [call])
  else (st, [call, PortalOut.criticalDialog "Failed to bind shortcuts"])

/-- `ShortcutsPortal::configureShortcuts`: same shape as the bind call but
with no shortcut list. -/
def configureShortcuts (windowId : String) (replyIsReply : Bool)
    (st : PortalState) : PortalState × List PortalOut :=
  let call := PortalOut.configureShortcutsCall st.sessionObjPath windowId
    st.handleToken
  if replyIsReply then (st, [call])
  else (st, [call, PortalOut.criticalDialog "Failed to configure shortcuts"])

/-- `ShortcutsPortal::onCreateSessionResponse`.  `results_sessionHandle` is
`results["session_handle"]` when the map contains that key, else `none`.
The handler stores the session path when present (only a warning otherwise),
then unconditionally swaps the one-shot listener for the two persistent
signal listeners and, when OBS has finished loading, immediately rebuilds
the registry and calls `bindShortcuts` — also on the no-handle path. -/
def onCreateSessionResponse (md5hex : String → String) (A : ActionList)
    (windowId : String) (bindReplyIsReply : Bool) (st : PortalState)
    (results_sessionHandle : Option String) : PortalState × List PortalOut :=
  let st1 := match results_sessionHandle with
    | some h => { st with sessionObjPath := h }
    | none => st
  let outs1 : List PortalOut := match results_sessionHandle with
    | some _ => []
    | none => [PortalOut.logLine "Session creation response did not contain session_handle"]
  let st2 := { st1 with
      oneShotConnected := false,
      activatedConnected := true,
      deactivatedConnected := true }
  let outs2 := outs1 ++
    [PortalOut.disconnectResponseSignal st1.responseHandle,
     PortalOut.connectActivatedSignal, PortalOut.connectDeactivatedSignal]
  if st2.isLoaded then
    let st3 := { st2 with shortcuts := createShortcuts md5hex A st2.shortcuts }
    let res := bindShortcuts windowId bindReplyIsReply st3
    (res.1, outs2 ++ res.2)
  else
    (st2, outs2 ++ [PortalOut.logLine "Deferring shortcut binding until OBS finishes loading"])

/-- `ShortcutsPortal::onActivatedSignal`: look the shortcut name up; when
present invoke its callback once with `pressed = true`, otherwise do
nothing.  The result lists the callback invocations performed. -/
def onActivatedSignal (st : PortalState) (shortcutName : String) :
    List (PortalShortcut × Bool) :=
  match qmapLookup st.shortcuts shortcutName with
  | some s => [(s, true)]
  | none => []

/-- `ShortcutsPortal::onDeactivatedSignal`: same with `pressed = false`. -/
def onDeactivatedSignal (st : PortalState) (shortcutName : String) :
    List (PortalShortcut × Bool) :=
  match qmapLookup st.shortcuts shortcutName with
  | some s => [(s, false)]
  | none => []

/-- The OBS frontend events the handler reacts to. -/
inductive FrontendEvent where
  | finishedLoading
  | sceneListChanged
  | sceneCollectionChanged
  | profileChanged
  | otherEvent
  deriving DecidableEq

/-- Whether the event is in the four-event resync trigger list. -/
def isResyncEvent (ev : FrontendEvent) : Bool :=
  match ev with
  | .otherEvent => false
  | _ => true

/-- `ShortcutsPortal::obsFrontendEvent`: mark loading finished, and on a
resync-trigger event run `createShortcuts(); bindShortcuts();` only when
OBS is loaded and the session path is nonempty; otherwise the event is
ignored (the queued lambda of the source runs on the same event loop and is
modelled as running immediately, no other event intervening). -/
def obsFrontendEvent (md5hex : String → String) (A : ActionList)
    (windowId : String) (bindReplyIsReply : Bool) (st : PortalState)
    (ev : FrontendEvent) : PortalState × List PortalOut :=
  let st := if ev = FrontendEvent.finishedLoading then
      { st with isLoaded := true }
    else st
  if isResyncEvent ev then
    if st.isLoaded ∧ st.sessionObjPath ≠ "" then
      let st2 := { st with shortcuts := createShortcuts md5hex A st.shortcuts }
      bindShortcuts windowId bindReplyIsReply st2
    else
      (st, [PortalOut.logLine "Ignoring event, session not yet created or OBS not loaded"])
  else (st, [])

/-! ### Observation helpers on the emitted event lists -/

/-- Whether an output event is an outgoing `BindShortcuts` call. -/
def isBindCall : PortalOut → Bool
  | .bindShortcutsCall _ _ _ _ => true
  | _ => false

/-- Whether the output list contains an outgoing `BindShortcuts` call. -/
def emitsBind (outs : List PortalOut) : Bool := outs.any isBindCall

/-- Whether an output event is a `BindShortcuts` call whose session handle
is the empty (unset) path. -/
def isEmptyHandleBindCall : PortalOut → Bool
  | .bindShortcutsCall h _ _ _ => h == ""
  | _ => false

/-- Whether the output list contains a `BindShortcuts` call carrying the
empty session handle. -/
def emitsEmptyHandleBind (outs : List PortalOut) : Bool :=
  outs.any isEmptyHandleBindCall

/-- The session handles of all emitted `BindShortcuts` calls. -/
def bindHandles (outs : List PortalOut) : List String :=
  outs.filterMap fun o => match o with
    | .bindShortcutsCall h _ _ _ => some h
    | _ => none

/-- The `handle_token` option values of all emitted portal requests. -/
def callTokens (outs : List PortalOut) : List String :=
  outs.filterMap fun o => match o with
    | .createSessionCall t _ => some t
    | .bindShortcutsCall _ _ _ t => some t
    | .configureShortcutsCall _ _ t => some t
    | _ => none

/-! ### Registry shape of one `createShortcuts` pass -/

theorem qmapInsert_of_not_mem (k : String) (v : PortalShortcut) :
    ∀ r : Registry, k ∉ r.map Prod.fst → qmapInsert k v r = r ++ [(k, v)] := by
  intro r
  induction r with
  | nil => intro _; rfl
  | cons e rest ih =>
      intro hk
      have hne : e.1 ≠ k := by
        intro he
        exact hk (by simp [he])
      show (if e.1 = k then (k, v) :: rest else e :: qmapInsert k v rest)
          = e :: rest ++ [(k, v)]
      rw [if_neg hne, ih (fun hm => hk (by simp [hm]))]
      rfl

theorem createShortcut_of_not_mem (k d : String) (cb : CallbackSpec)
    (r : Registry) (h : k ∉ r.map Prod.fst) :
    createShortcut k d cb r = r ++ [(k, ⟨k, d, cb⟩)] :=
  qmapInsert_of_not_mem k ⟨k, d, cb⟩ r h

theorem hotkeys_foldl_eq :
    ∀ (xs : List HotkeyBinding) (r : Registry),
      (∀ b ∈ xs, hkId b.id ∉ r.map Prod.fst) →
      (xs.map fun b => hkId b.id).Nodup →
      xs.foldl
        (fun acc b =>
          createShortcut (hkId b.id) (hotkeyDescription b)
            (CallbackSpec.triggerHotkey b.id) acc) r
        = r ++ xs.map hotkeyEntry := by
  intro xs
  induction xs with
  | nil => intro r _ _; simp
  | cons b rest ih =>
      intro r hfresh hnodup
      have hb : hkId b.id ∉ r.map Prod.fst := hfresh b (by simp)
      have hstep :
          createShortcut (hkId b.id) (hotkeyDescription b)
            (CallbackSpec.triggerHotkey b.id) r
            = r ++ [hotkeyEntry b] :=
        createShortcut_of_not_mem _ _ _ r hb
      simp only [List.foldl_cons, hstep]
      rw [ih (r ++ [hotkeyEntry b]) ?fresh ?nodup]
      · simp [hotkeyEntry]
      case fresh =>
        intro c hc
        simp only [List.map_append, List.mem_append]
        rintro (hmem | hmem)
        · exact hfresh c (by simp [hc]) hmem
        · have hcb : hkId c.id = hkId b.id := by
            simpa [hotkeyEntry] using hmem
          have hnd := hnodup
          simp only [List.map_cons, List.nodup_cons] at hnd
          exact hnd.1 (by
            rw [← hcb]
            exact List.mem_map_of_mem (fun b => hkId b.id) hc)
      case nodup =>
        simp only [List.map_cons, List.nodup_cons] at hnodup
        exact hnodup.2

theorem scenes_foldl_eq (md5hex : String → String) :
    ∀ (xs : List String) (r : Registry),
      (∀ n ∈ xs, n ≠ "") →
      (∀ n ∈ xs, sceneId md5hex n ∉ r.map Prod.fst) →
      (xs.map (sceneId md5hex)).Nodup →
      xs.foldl
        (fun acc sceneName =>
          if sceneName = "" then acc
          else
            createShortcut (sceneId md5hex sceneName)
              (sceneDescription sceneName)
              (CallbackSpec.switchToScene sceneName) acc) r
        = r ++ xs.map (sceneEntry md5hex) := by
  intro xs
  induction xs with
  | nil => intro r _ _ _; simp
  | cons n rest ih =>
      intro r hne hfresh hnodup
      have hn : n ≠ "" := hne n (by simp)
      have hb : sceneId md5hex n ∉ r.map Prod.fst := hfresh n (by simp)
      have hstep :
          (if n = "" then r
           else
             createShortcut (sceneId md5hex n) (sceneDescription n)
               (CallbackSpec.switchToScene n) r)
            = r ++ [sceneEntry md5hex n] := by
        rw [if_neg hn]
        exact createShortcut_of_not_mem _ _ _ r hb
      simp only [List.foldl_cons, hstep]
      rw [ih (r ++ [sceneEntry md5hex n]) (fun m hm => hne m (by simp [hm]))
            ?fresh ?nodup]
      · simp [sceneEntry]
      case fresh =>
        intro m hm
        simp only [List.map_append, List.mem_append]
        rintro (hmem | hmem)
        · exact hfresh m (by simp [hm]) hmem
        · have hmn : sceneId md5hex m = sceneId md5hex n := by
            simpa [sceneEntry] using hmem
          simp only [List.map_cons, List.nodup_cons] at hnodup
          exact hnodup.1 (by
            rw [← hmn]
            exact List.mem_map_of_mem (sceneId md5hex) hm)
      case nodup =>
        simp only [List.map_cons, List.nodup_cons] at hnodup
        exact hnodup.2

theorem foldl_qmapInsert_entries :
    ∀ (es : List (String × PortalShortcut)) (r : Registry),
      (∀ e ∈ es, e.1 ∉ r.map Prod.fst) →
      (es.map Prod.fst).Nodup →
      es.foldl (fun acc e => qmapInsert e.1 e.2 acc) r = r ++ es := by
  intro es
  induction es with
  | nil => intro r _ _; simp
  | cons e rest ih =>
      intro r hfresh hnodup
      have hstep : qmapInsert e.1 e.2 r = r ++ [e] := by
        rw [qmapInsert_of_not_mem e.1 e.2 r (hfresh e (by simp))]
      simp only [List.foldl_cons, hstep]
      rw [ih (r ++ [e]) ?fresh ?nodup]
      · simp
      case fresh =>
        intro c hc
        simp only [List.map_append, List.mem_append]
        rintro (hmem | hmem)
        · exact hfresh c (by simp [hc]) hmem
        · simp only [List.map_cons, List.nodup_cons] at hnodup
          have hce : c.1 = e.1 := by simpa using hmem
          exact hnodup.1 (hce ▸ List.mem_map_of_mem Prod.fst hc)
      case nodup =>
        simp only [List.map_cons, List.nodup_cons] at hnodup
        exact hnodup.2

theorem headChar_of_mem_hkKeys {s : String} {l : List HotkeyBinding}
    (h : s ∈ (l.map hotkeyEntry).map Prod.fst) : headChar s = some 'h' := by
  rw [List.map_map] at h
  obtain ⟨b, _, he⟩ := List.mem_map.mp h
  rw [← he]
  exact headChar_hkId b.id

theorem headChar_of_mem_sceneKeys {s : String} {md5hex : String → String}
    {l : List String}
    (h : s ∈ (l.map (sceneEntry md5hex)).map Prod.fst) :
    headChar s = some 's' := by
  rw [List.map_map] at h
  obtain ⟨n, _, he⟩ := List.mem_map.mp h
  rw [← he]
  exact headChar_sceneId md5hex n

theorem headChar_of_mem_synthKeys {s : String}
    (h : s ∈ syntheticEntries.map Prod.fst) : headChar s = some '_' := by
  fin_cases h <;> decide

/-- The full shape of a resync pass on valid host data: the registry is the
hotkey entries, then the five synthetic toggles, then the scene entries. -/
theorem createShortcuts_eq (md5hex : String → String) (A : ActionList)
    (r : Registry)
    (hid : (A.hotkeys.map HotkeyBinding.id).Nodup)
    (hsc : A.scenes.Nodup)
    (hne : ∀ n ∈ A.scenes, n ≠ "")
    (hinj : ∀ m ∈ A.scenes, ∀ n ∈ A.scenes, md5hex m = md5hex n → m = n) :
    createShortcuts md5hex A r
      = A.hotkeys.map hotkeyEntry ++ syntheticEntries
        ++ A.scenes.map (sceneEntry md5hex) := by
  have hkeys : (A.hotkeys.map fun b => hkId b.id).Nodup := by
    have he : (A.hotkeys.map fun b => hkId b.id)
        = (A.hotkeys.map HotkeyBinding.id).map hkId := by
      rw [List.map_map]
      rfl
    rw [he]
    exact hid.map hkId_inj
  have hscenekeys : (A.scenes.map (sceneId md5hex)).Nodup :=
    hsc.map_on fun x hx y hy he => hinj x hx y hy (string_append_cancel_left he)
  have hfold1 : A.hotkeys.foldl
      (fun acc b =>
        createShortcut (hkId b.id) (hotkeyDescription b)
          (CallbackSpec.triggerHotkey b.id) acc) (qmapClear r)
      = A.hotkeys.map hotkeyEntry := by
    rw [hotkeys_foldl_eq A.hotkeys (qmapClear r) (by simp [qmapClear]) hkeys]
    simp [qmapClear]
  have hsynth : createShortcut "_toggle_studio_mode" "Toggle Studio Mode"
      CallbackSpec.toggleStudioMode
      (createShortcut "_toggle_virtualcam" "Toggle Virtual Camera"
        CallbackSpec.toggleVirtualcam
        (createShortcut "_toggle_replay_buffer" "Toggle Replay Buffer"
          CallbackSpec.toggleReplayBuffer
          (createShortcut "_toggle_streaming" "Toggle Streaming"
            CallbackSpec.toggleStreaming
            (createShortcut "_toggle_recording" "Toggle Recording"
              CallbackSpec.toggleRecording (A.hotkeys.map hotkeyEntry)))))
      = A.hotkeys.map hotkeyEntry ++ syntheticEntries := by
    show syntheticEntries.foldl (fun acc e => qmapInsert e.1 e.2 acc)
        (A.hotkeys.map hotkeyEntry)
      = A.hotkeys.map hotkeyEntry ++ syntheticEntries
    refine foldl_qmapInsert_entries syntheticEntries (A.hotkeys.map hotkeyEntry)
      ?_ (by decide)
    intro e he hm
    have hh := headChar_of_mem_hkKeys hm
    have hu : headChar e.1 = some '_' :=
      headChar_of_mem_synthKeys (List.mem_map_of_mem Prod.fst he)
    rw [hh] at hu
    exact absurd hu (by decide)
  have hscfresh : ∀ n ∈ A.scenes,
      sceneId md5hex n
        ∉ (A.hotkeys.map hotkeyEntry ++ syntheticEntries).map Prod.fst := by
    intro n _
    simp only [List.map_append, List.mem_append]
    rintro (hm | hm)
    · have hh := headChar_of_mem_hkKeys hm
      rw [headChar_sceneId md5hex n] at hh
      exact absurd hh (by decide)
    · have hh := headChar_of_mem_synthKeys hm
      rw [headChar_sceneId md5hex n] at hh
      exact absurd hh (by decide)
  show A.scenes.foldl
      (fun acc sceneName =>
        if sceneName = "" then acc
        else
          createShortcut (sceneId md5hex sceneName) (sceneDescription sceneName)
            (CallbackSpec.switchToScene sceneName) acc)
      (createShortcut "_toggle_studio_mode" "Toggle Studio Mode"
        CallbackSpec.toggleStudioMode
        (createShortcut "_toggle_virtualcam" "Toggle Virtual Camera"
          CallbackSpec.toggleVirtualcam
          (createShortcut "_toggle_replay_buffer" "Toggle Replay Buffer"
            CallbackSpec.toggleReplayBuffer
            (createShortcut "_toggle_streaming" "Toggle Streaming"
              CallbackSpec.toggleStreaming
              (createShortcut "_toggle_recording" "Toggle Recording"
                CallbackSpec.toggleRecording
                (A.hotkeys.foldl
                  (fun acc b =>
                    createShortcut (hkId b.id) (hotkeyDescription b)
                      (CallbackSpec.triggerHotkey b.id) acc) (qmapClear r)))))))
      = A.hotkeys.map hotkeyEntry ++ syntheticEntries
        ++ A.scenes.map (sceneEntry md5hex)
  rw [hfold1, hsynth,
      scenes_foldl_eq md5hex A.scenes
        (A.hotkeys.map hotkeyEntry ++ syntheticEntries) hne hscfresh hscenekeys,
      List.append_assoc]

/-- The key list of a resync pass on valid host data has no duplicates. -/
theorem createShortcuts_keys_nodup (md5hex : String → String) (A : ActionList)
    (r : Registry)
    (hid : (A.hotkeys.map HotkeyBinding.id).Nodup)
    (hsc : A.scenes.Nodup)
    (hne : ∀ n ∈ A.scenes, n ≠ "")
    (hinj : ∀ m ∈ A.scenes, ∀ n ∈ A.scenes, md5hex m = md5hex n → m = n) :
    ((createShortcuts md5hex A r).map Prod.fst).Nodup := by
  rw [createShortcuts_eq md5hex A r hid hsc hne hinj]
  have hkeys : ((A.hotkeys.map hotkeyEntry).map Prod.fst).Nodup := by
    rw [List.map_map]
    have he : (A.hotkeys.map (Prod.fst ∘ hotkeyEntry))
        = (A.hotkeys.map HotkeyBinding.id).map hkId := by
      rw [List.map_map]
      rfl
    rw [he]
    exact hid.map hkId_inj
  have hscenekeys : ((A.scenes.map (sceneEntry md5hex)).map Prod.fst).Nodup := by
    rw [List.map_map]
    exact (hsc.map_on fun x hx y hy he =>
      hinj x hx y hy (string_append_cancel_left he))
  rw [List.append_assoc, List.map_append, List.nodup_append]
  refine ⟨hkeys, ?_, ?_⟩
  · rw [List.map_append, List.nodup_append]
    refine ⟨by decide, hscenekeys, ?_⟩
    intro a h1 h2
    have hu := headChar_of_mem_synthKeys h1
    rw [headChar_of_mem_sceneKeys h2] at hu
    exact absurd hu (by decide)
  · intro a h1
    rw [List.map_append, List.mem_append]
    rintro (h2 | h2)
    · have hu := headChar_of_mem_synthKeys h2
      rw [headChar_of_mem_hkKeys h1] at hu
      exact absurd hu (by decide)
    · have hu := headChar_of_mem_sceneKeys h2
      rw [headChar_of_mem_hkKeys h1] at hu
      exact absurd hu (by decide)

/-! ### Concrete states used by counterexamples and witnesses -/

/-- A portal object whose `CreateSession` reply has not stored a session
handle yet (empty `m_sessionObjPath`) while OBS has finished loading. -/
def preEstablishedLoadedState : PortalState :=
  { shortcuts := [], sessionObjPath := "", responseHandle := "/req/1",
    handleToken := "obs_handle_token",
    sessionHandleToken := "obs_session_token",
    isLoaded := true, oneShotConnected := true,
    activatedConnected := false, deactivatedConnected := false }

/-- The portal object right after construction, before any remote call. -/
def initialState : PortalState :=
  { shortcuts := [], sessionObjPath := "", responseHandle := "",
    handleToken := "obs_handle_token",
    sessionHandleToken := "obs_session_token",
    isLoaded := false, oneShotConnected := false,
    activatedConnected := false, deactivatedConnected := false }

/-- An action list with a single hotkey and no scenes. -/
def hotkeyOnlyActions : ActionList :=
  ⟨[⟨7, some "Mute Mic", none, none⟩], []⟩

/-! ### C1 -/

/-- C1 counterexample.  The claim says that after a success reply whose
result map lacks `session_handle`, no bind is performed as a consequence of
that reply.  On the concrete state where OBS has finished loading,
`onCreateSessionResponse` with a handle-less result map nevertheless emits
a `BindShortcuts` call, so the claimed conjunction is false there. -/
theorem c1_counterexample :
    emitsBind (onCreateSessionResponse (fun _ => "") ⟨[], []⟩ "" true
      preEstablishedLoadedState none).2 = true := by decide

/-- C1 amended.  When the success reply lacks `session_handle`, the session
handle indeed stays unset and the state stays non-Established; but the
handler does not stop: when OBS has not finished loading the bind is merely
deferred, and when it has finished loading the handler still resyncs and
sends one `BindShortcuts` call, necessarily carrying the empty session
handle. -/
theorem c1_theorem (md5hex : String → String) (A : ActionList)
    (windowId : String) (bindReplyIsReply : Bool) (st : PortalState)
    (hpath : st.sessionObjPath = "") :
    (onCreateSessionResponse md5hex A windowId bindReplyIsReply st
        none).1.sessionObjPath = ""
    ∧ (st.isLoaded = false →
        emitsBind (onCreateSessionResponse md5hex A windowId bindReplyIsReply
          st none).2 = false)
    ∧ (st.isLoaded = true →
        bindHandles (onCreateSessionResponse md5hex A windowId bindReplyIsReply
          st none).2 = [""]) := by
  cases hl : st.isLoaded <;> cases hb : bindReplyIsReply <;>
    simp [onCreateSessionResponse, bindShortcuts, bindHandles, emitsBind,
      isBindCall, hpath, hl, hb]

/-- C1 witness: the amended statement at the concrete loaded state. -/
theorem c1_witness :
    (onCreateSessionResponse (fun _ => "") ⟨[], []⟩ "" true
        preEstablishedLoadedState none).1.sessionObjPath = ""
    ∧ (preEstablishedLoadedState.isLoaded = false →
        emitsBind (onCreateSessionResponse (fun _ => "") ⟨[], []⟩ "" true
          preEstablishedLoadedState none).2 = false)
    ∧ (preEstablishedLoadedState.isLoaded = true →
        bindHandles (onCreateSessionResponse (fun _ => "") ⟨[], []⟩ "" true
          preEstablishedLoadedState none).2 = [""]) :=
  c1_theorem (fun _ => "") ⟨[], []⟩ "" true preEstablishedLoadedState rfl

/-! ### C2 -/

/-- C2 counterexample.  The claim says no `BindShortcuts` call is ever sent
carrying an empty or unset session handle.  In the execution where the
create-session reply lacked `session_handle` and OBS has loaded, the
response handler calls `bindShortcuts` unguarded and the emitted
`BindShortcuts` call carries the empty session handle. -/
theorem c2_counterexample :
    emitsEmptyHandleBind (onCreateSessionResponse (fun _ => "") ⟨[], []⟩
      "windowid" true preEstablishedLoadedState none).2 = true := by decide

theorem emitsEmptyHandleBind_bindShortcuts (windowId : String) (ok : Bool)
    (st : PortalState) (h : st.sessionObjPath ≠ "") :
    emitsEmptyHandleBind (bindShortcuts windowId ok st).2 = false := by
  cases ok <;>
    simp [bindShortcuts, emitsEmptyHandleBind, isEmptyHandleBindCall, h]

/-- C2 amended.  The session gate exists only on the frontend-event path:
`obsFrontendEvent` never emits a `BindShortcuts` call with an empty session
handle (pre-Established triggers are skipped entirely, and after
Established the handle is nonempty).  `bindShortcuts` itself checks
nothing, and the create-session response handler reaches it even when the
reply carried no session handle, which does send an empty-handle bind
(the counterexample). -/
theorem c2_theorem : ∀ (md5hex : String → String) (A : ActionList)
    (windowId : String) (bindReplyIsReply : Bool) (st : PortalState)
    (ev : FrontendEvent),
    emitsEmptyHandleBind
      (obsFrontendEvent md5hex A windowId bindReplyIsReply st ev).2 = false := by
  intro md5hex A windowId ok st ev
  simp only [obsFrontendEvent]
  split
  · split <;> split
    all_goals first
      | rfl
      | (rename_i hg; exact emitsEmptyHandleBind_bindShortcuts windowId ok _ hg.2)
  · rfl

/-! ### C3 -/

/-- C3 counterexample.  The claim says a transport-level `CreateSession`
failure performs no further session-establishment steps, naming listener
installation among them.  On the failed synchronous reply the code does not
return early: it still installs the one-shot `Response` listener (on the
path read out of the failed reply). -/
theorem c3_counterexample :
    ((createSession initialState ⟨false, ""⟩).2.contains
      (PortalOut.connectResponseSignal "")) = true
    ∧ (createSession initialState ⟨false, ""⟩).1.oneShotConnected = true := by
  decide

/-- C3 amended.  On a transport/method-level failure of `CreateSession` the
fatal dialog is surfaced, the session handle stays as it was (the state
remains non-Established), the registry is untouched and no bind is emitted
by that call; however the function does not return early: it still reads a
response handle out of the failed reply and installs the one-shot
`Response` listener on it. -/
theorem c3_theorem (st : PortalState) (reply : SyncCallReply)
    (hfail : reply.isReplyMessage = false) :
    PortalOut.criticalDialog "Failed to create global shortcuts session"
        ∈ (createSession st reply).2
    ∧ (createSession st reply).1.sessionObjPath = st.sessionObjPath
    ∧ (createSession st reply).1.shortcuts = st.shortcuts
    ∧ emitsBind (createSession st reply).2 = false
    ∧ PortalOut.connectResponseSignal reply.firstArgObjectPath
        ∈ (createSession st reply).2
    ∧ (createSession st reply).1.oneShotConnected = true := by
  simp [createSession, hfail, emitsBind, isBindCall]

/-- C3 witness: the amended statement at the initial state and a concrete
failed reply. -/
theorem c3_witness :
    PortalOut.criticalDialog "Failed to create global shortcuts session"
        ∈ (createSession initialState ⟨false, "/bogus"⟩).2
    ∧ (createSession initialState ⟨false, "/bogus"⟩).1.sessionObjPath
        = initialState.sessionObjPath
    ∧ (createSession initialState ⟨false, "/bogus"⟩).1.shortcuts
        = initialState.shortcuts
    ∧ emitsBind (createSession initialState ⟨false, "/bogus"⟩).2 = false
    ∧ PortalOut.connectResponseSignal "/bogus"
        ∈ (createSession initialState ⟨false, "/bogus"⟩).2
    ∧ (createSession initialState ⟨false, "/bogus"⟩).1.oneShotConnected
        = true :=
  c3_theorem initialState ⟨false, "/bogus"⟩ rfl

/-! ### C4 -/

/-- C4.  Activation routing: when the registry maps `"hk_7"` to descriptor
`d`, an inbound `Activated("hk_7")` performs exactly one callback
invocation, of that descriptor with `pressed = true`, and no other; and for
any id the registry does not contain, both `Activated` and `Deactivated`
perform no invocation at all. -/
theorem c4_theorem (st : PortalState) (d : PortalShortcut)
    (hd : qmapLookup st.shortcuts "hk_7" = some d) :
    onActivatedSignal st "hk_7" = [(d, true)]
    ∧ ∀ absentId : String, qmapLookup st.shortcuts absentId = none →
        onActivatedSignal st absentId = []
        ∧ onDeactivatedSignal st absentId = [] := by
  refine ⟨by simp [onActivatedSignal, hd], ?_⟩
  intro i hi
  exact ⟨by simp [onActivatedSignal, hi], by simp [onDeactivatedSignal, hi]⟩

/-- C4 witness: a registry with `hk_7` and a second descriptor; activation
of `hk_7` invokes only its callback, and `hk_999` invokes nothing. -/
theorem c4_witness :
    onActivatedSignal
        { preEstablishedLoadedState with
            shortcuts :=
              [("hk_7", ⟨"hk_7", "Mute Mic", CallbackSpec.triggerHotkey 7⟩),
               ("hk_8", ⟨"hk_8", "Other", CallbackSpec.triggerHotkey 8⟩)] }
        "hk_7"
      = [(⟨"hk_7", "Mute Mic", CallbackSpec.triggerHotkey 7⟩, true)]
    ∧ onActivatedSignal
        { preEstablishedLoadedState with
            shortcuts :=
              [("hk_7", ⟨"hk_7", "Mute Mic", CallbackSpec.triggerHotkey 7⟩),
               ("hk_8", ⟨"hk_8", "Other", CallbackSpec.triggerHotkey 8⟩)] }
        "hk_999" = [] := by
  have h := c4_theorem
    { preEstablishedLoadedState with
        shortcuts :=
          [("hk_7", ⟨"hk_7", "Mute Mic", CallbackSpec.triggerHotkey 7⟩),
           ("hk_8", ⟨"hk_8", "Other", CallbackSpec.triggerHotkey 8⟩)] }
    ⟨"hk_7", "Mute Mic", CallbackSpec.triggerHotkey 7⟩ (by decide)
  exact ⟨h.1, (h.2 "hk_999" (by decide)).1⟩

/-! ### C5 -/

/-- C5 counterexample.  The claim promises one descriptor per action for
every action list.  For the action list holding a single scene whose name
is the empty string, the resync skips the scene (`continue` on empty
names), so the resulting registry is exactly the five synthetic toggles and
contains no descriptor for that action. -/
theorem c5_counterexample :
    createShortcuts (fun _ => "") ⟨[], [""]⟩ [] = syntheticEntries := by
  decide

/-- C5 amended.  For every action list whose hotkey ids are pairwise
distinct (the host guarantee), whose scene names are pairwise distinct and
nonempty, and on which the MD5-hex primitive does not collide, the resync
leaves exactly one descriptor per action — the hotkey entries, then the
five synthetic toggles, then the scene entries — with no two descriptors
sharing an id.  An action with an empty scene name is skipped and gets no
descriptor (the counterexample). -/
theorem c5_theorem (md5hex : String → String) (A : ActionList) (r : Registry)
    (hid : (A.hotkeys.map HotkeyBinding.id).Nodup)
    (hsc : A.scenes.Nodup)
    (hne : ∀ n ∈ A.scenes, n ≠ "")
    (hinj : ∀ m ∈ A.scenes, ∀ n ∈ A.scenes, md5hex m = md5hex n → m = n) :
    createShortcuts md5hex A r
        = A.hotkeys.map hotkeyEntry ++ syntheticEntries
          ++ A.scenes.map (sceneEntry md5hex)
    ∧ ((createShortcuts md5hex A r).map Prod.fst).Nodup :=
  ⟨createShortcuts_eq md5hex A r hid hsc hne hinj,
   createShortcuts_keys_nodup md5hex A r hid hsc hne hinj⟩

/-- C5 witness: the amended statement at a concrete action list with one
hotkey and one scene, using the identity function for the hash primitive. -/
theorem c5_witness :
    createShortcuts (fun s => s) ⟨[⟨7, some "Mute Mic", none, none⟩], ["SceneA"]⟩ []
        = (ActionList.mk [⟨7, some "Mute Mic", none, none⟩] ["SceneA"]).hotkeys.map hotkeyEntry
          ++ syntheticEntries
          ++ (ActionList.mk [⟨7, some "Mute Mic", none, none⟩] ["SceneA"]).scenes.map
              (sceneEntry fun s => s)
    ∧ ((createShortcuts (fun s => s)
          ⟨[⟨7, some "Mute Mic", none, none⟩], ["SceneA"]⟩ []).map Prod.fst).Nodup :=
  c5_theorem (fun s => s) ⟨[⟨7, some "Mute Mic", none, none⟩], ["SceneA"]⟩ []
    (by decide) (by decide) (by decide) (by decide)

/-! ### C6 -/

/-- C6.  A resync starts with `m_shortcuts.clear()`, so its result does not
depend on the previous registry contents at all: running `resync(A)` twice
in a row equals running it once, and no id from an earlier resync with a
different action list B survives. -/
theorem c6_theorem : ∀ (md5hex : String → String) (A B : ActionList)
    (r : Registry),
    createShortcuts md5hex A (createShortcuts md5hex A r)
        = createShortcuts md5hex A r
    ∧ createShortcuts md5hex A (createShortcuts md5hex B r)
        = createShortcuts md5hex A r := by
  intro md5hex A B r
  exact ⟨rfl, rfl⟩

/-! ### C7 -/

/-- C7.  The numeric-id derivation is the function
`n ↦ "hk_" ++ decimal(n)`: deriving twice from the same key yields the same
string, and distinct numeric keys always yield distinct strings. -/
theorem c7_theorem :
    (∀ n : Nat, hkId n = "hk_" ++ Nat.repr n)
    ∧ ∀ m n : Nat, m ≠ n → hkId m ≠ hkId n :=
  ⟨fun _ => rfl, fun _ _ hmn he => hmn (hkId_inj he)⟩

/-- C7 witness: distinctness at the concrete keys 3 and 7. -/
theorem c7_witness : hkId 3 ≠ hkId 7 :=
  c7_theorem.2 3 7 (by decide)

/-! ### C8 -/

/-- C8 counterexample.  The claim says a resync trigger arriving before
Established still repopulates the registry.  On the loaded state with the
session handle still unset, a scene-list-changed event leaves the registry
empty, even though a rebuild of the same action list would produce six
entries. -/
theorem c8_counterexample :
    (obsFrontendEvent (fun _ => "") hotkeyOnlyActions "" true
        preEstablishedLoadedState FrontendEvent.sceneListChanged).1.shortcuts = []
    ∧ (createShortcuts (fun _ => "") hotkeyOnlyActions []).length = 6 := by
  decide

/-- C8 amended.  A resync trigger arriving while the session handle is
unset is ignored entirely: the registry is not repopulated and no bind call
is emitted.  (The registry is instead rebuilt by the create-session
response handler itself when OBS has loaded, or by triggers arriving after
Established.) -/
theorem c8_theorem (md5hex : String → String) (A : ActionList)
    (windowId : String) (bindReplyIsReply : Bool) (st : PortalState)
    (ev : FrontendEvent) (hpath : st.sessionObjPath = "") :
    (obsFrontendEvent md5hex A windowId bindReplyIsReply st ev).1.shortcuts
        = st.shortcuts
    ∧ emitsBind
        (obsFrontendEvent md5hex A windowId bindReplyIsReply st ev).2 = false := by
  simp only [obsFrontendEvent]
  split
  · split <;> split
    all_goals first
      | exact ⟨rfl, rfl⟩
      | (rename_i hg; exact absurd hpath hg.2)
  · split <;> exact ⟨rfl, rfl⟩

/-- C8 witness: the amended statement at the loaded pre-Established state
and a profile-changed trigger bearing a nonempty action list. -/
theorem c8_witness :
    (obsFrontendEvent (fun _ => "") hotkeyOnlyActions "w" true
        preEstablishedLoadedState FrontendEvent.profileChanged).1.shortcuts
        = preEstablishedLoadedState.shortcuts
    ∧ emitsBind (obsFrontendEvent (fun _ => "") hotkeyOnlyActions "w" true
        preEstablishedLoadedState FrontendEvent.profileChanged).2 = false :=
  c8_theorem (fun _ => "") hotkeyOnlyActions "w" true preEstablishedLoadedState
    FrontendEvent.profileChanged rfl

/-! ### C9 -/

/-- C9 counterexample.  The claim says every outgoing request carries a
freshly generated token, no two sharing one.  In the run that creates a
session and later binds, both requests carry the same stored
`m_handleToken` value. -/
theorem c9_counterexample :
    callTokens (createSession preEstablishedLoadedState ⟨true, "/req/1"⟩).2
        = ["obs_handle_token"]
    ∧ callTokens (bindShortcuts "" true
        { preEstablishedLoadedState with sessionObjPath := "/session/1" }).2
        = ["obs_handle_token"] := by
  decide

/-- C9 amended.  Every outgoing portal request — session creation, bind and
configure — carries exactly the stored `m_handleToken` member of the portal as
its `handle_token`; the token is never regenerated per call, so all
requests of one object share it. -/
theorem c9_theorem : ∀ (st : PortalState) (reply : SyncCallReply)
    (windowId : String) (replyIsReply : Bool),
    callTokens (createSession st reply).2 = [st.handleToken]
    ∧ callTokens (bindShortcuts windowId replyIsReply st).2 = [st.handleToken]
    ∧ callTokens (configureShortcuts windowId replyIsReply st).2
        = [st.handleToken] := by
  intro st reply windowId ok
  refine ⟨?_, ?_, ?_⟩
  · cases h : reply.isReplyMessage <;>
      simp [createSession, callTokens, h]
  · cases ok <;> simp [bindShortcuts, callTokens]
  · cases ok <;> simp [configureShortcuts, callTokens]

/-! ### C10 -/

/-- C10.  Each of the five synthetic toggle callbacks begins with
`if (!pressed) return;`: invoked with `pressed = false` it changes no OBS
state and performs no OBS call; the toggle effect can only happen on
`pressed = true`. -/
theorem c10_theorem : ∀ s : ObsState,
    runCallback CallbackSpec.toggleRecording false s = (s, [])
    ∧ runCallback CallbackSpec.toggleStreaming false s = (s, [])
    ∧ runCallback CallbackSpec.toggleReplayBuffer false s = (s, [])
    ∧ runCallback CallbackSpec.toggleVirtualcam false s = (s, [])
    ∧ runCallback CallbackSpec.toggleStudioMode false s = (s, []) := by
  intro s
  exact ⟨rfl, rfl, rfl, rfl, rfl⟩
